import Mathlib

/-!
Verification of the Bonkfun-Bundler core against its specification.

The TypeScript source is shallowly embedded: effectful chain calls
(balance reads, transaction submission, confirmation) are modelled as
pre-supplied outcome values of type `Except String _`, and each method
becomes a pure Lean function over those outcomes.  BigInt wei amounts
become `Nat`; JavaScript floating-point MON amounts become `ℚ` (all the
concrete amounts checked here are exactly representable, so the rational
model agrees with IEEE doubles on them).
-/

set_option autoImplicit false

namespace BonkfunBundler

/-- Error payload of a thrown JS exception (the message string). -/
abbrev Err := String

/-- Opaque transaction hash identifier. -/
abbrev TxHash := Nat

/-- Result of a bundling attempt, from src/types.ts: ordered transaction
identifiers and their signatures. -/
structure TransactionBundle where
  transactions : List TxHash
  signatures : List TxHash
deriving DecidableEq, Repr

/-! ## Recovery sweep (src/bot/recovery.ts, src/contracts/nadfun.ts)

`recoverFromWallet` makes four chain interactions per wallet:
`getTokenBalance`, `sellToken`, `getMonBalance`, `transferMon`.  A
`WalletChain` record carries the outcome each of those calls would
produce for one wallet; the functions below replay the control flow of
the source on those outcomes. -/

/-- Outcomes of the four chain calls `recoverFromWallet` makes for one
wallet.  Balances are in wei (`Nat`); an `Except.error` models the call
throwing. -/
structure WalletChain where
  tokenBalance : Except Err Nat
  sellTx : Except Err Unit
  monBalance : Except Err Nat
  transferTx : Except Err Unit

/-- `NadFunContract.sellToken` (src/contracts/nadfun.ts lines 116-138):
sends the sell transaction and waits for the receipt; on success it
returns `monReceived`, which the source sets to `BigInt(0)` with the
comment that parsing the receipt is left unimplemented.  A throwing
transaction is re-thrown. -/
def sellToken (tx : Except Err Unit) : Except Err Nat :=
  match tx with
  | .ok _ => .ok 0
  | .error e => .error e

/-- `NadFunContract.buyToken` (src/contracts/nadfun.ts lines 86-111):
same shape as `sellToken`; `tokensReceived` is hardcoded to
`BigInt(0)`. -/
def buyToken (tx : Except Err Unit) : Except Err Nat :=
  match tx with
  | .ok _ => .ok 0
  | .error e => .error e

/-- The gas reserve kept per wallet: `ethers.parseEther(0.001)` wei. -/
def gasReserveWei : Nat := 10 ^ 15

/-- `RecoveryManager.recoverFromWallet` (src/bot/recovery.ts lines
70-124).  Reads the token balance (a throw propagates); if positive,
sells the whole balance with the sell error caught and logged; reads
the MON balance (a throw propagates); if positive, computes the
transfer amount minus the gas reserve (clamped at zero) and, if
positive, transfers it with the transfer error caught; returns the sum
of the sale proceeds and the confirmed transfer amount. -/
def recoverFromWallet (w : WalletChain) : Except Err Nat :=
  match w.tokenBalance with
  | .error e => .error e
  | .ok tokenBal =>
    let afterSell : Nat :=
      if 0 < tokenBal then
        match sellToken w.sellTx with
        | .ok monReceived => monReceived
        | .error _ => 0
      else 0
    match w.monBalance with
    | .error e => .error e
    | .ok monBal =>
      if 0 < monBal then
        let transferAmount : Nat :=
          if gasReserveWei < monBal then monBal - gasReserveWei else 0
        if 0 < transferAmount then
          match w.transferTx with
          | .ok _ => .ok (afterSell + transferAmount)
          | .error _ => .ok afterSell
        else .ok afterSell
      else .ok afterSell

/-- `RecoveryManager.executeRecovery` (src/bot/recovery.ts lines 33-65):
iterates over all wallets, calling `recoverFromWallet` inside a
try/catch; on success it adds the recovered amount and increments
`walletsProcessed`, on a throw it logs and moves to the next wallet.
Returns `(totalMonRecovered, walletsProcessed)`. -/
def executeRecovery (ws : List WalletChain) : Nat × Nat :=
  ws.foldl
    (fun acc w =>
      match recoverFromWallet w with
      | .ok recovered => (acc.1 + recovered, acc.2 + 1)
      | .error _ => acc)
    (0, 0)

/-- The MON actually moved to the recovery address for one wallet: the
balance minus the gas reserve when the transfer path runs and the
transfer confirms, else zero.  Stated from the source fields only; note
it has no token-sale term. -/
def walletTransferAmount (w : WalletChain) : Nat :=
  match w.monBalance with
  | .error _ => 0
  | .ok monBal =>
    if 0 < monBal then
      let transferAmount : Nat :=
        if gasReserveWei < monBal then monBal - gasReserveWei else 0
      if 0 < transferAmount then
        match w.transferTx with
        | .ok _ => transferAmount
        | .error _ => 0
      else 0
    else 0

lemma recoverFromWallet_ok_eq (w : WalletChain) (n : Nat)
    (h : recoverFromWallet w = .ok n) : n = walletTransferAmount w := by
  obtain ⟨tb, st, mb, tt⟩ := w
  unfold recoverFromWallet walletTransferAmount sellToken at *
  cases tb <;> cases st <;> cases mb <;> cases tt <;>
    simp_all <;> split_ifs at * <;> simp_all

lemma filterMap_cons_ok (w : WalletChain) (ws : List WalletChain) (n : Nat)
    (hr : recoverFromWallet w = .ok n) :
    (w :: ws).filterMap (fun w => (recoverFromWallet w).toOption)
      = n :: ws.filterMap (fun w => (recoverFromWallet w).toOption) := by
  rw [List.filterMap_cons]
  simp [hr, Except.toOption]

lemma filterMap_cons_error (w : WalletChain) (ws : List WalletChain) (e : Err)
    (hr : recoverFromWallet w = .error e) :
    (w :: ws).filterMap (fun w => (recoverFromWallet w).toOption)
      = ws.filterMap (fun w => (recoverFromWallet w).toOption) := by
  rw [List.filterMap_cons]
  simp [hr, Except.toOption]

lemma filter_cons_ok (w : WalletChain) (ws : List WalletChain) (n : Nat)
    (hr : recoverFromWallet w = .ok n) :
    (w :: ws).filter (fun w => (recoverFromWallet w).toOption.isSome)
      = w :: ws.filter (fun w => (recoverFromWallet w).toOption.isSome) := by
  rw [List.filter_cons]
  simp [hr, Except.toOption]

lemma filter_cons_error (w : WalletChain) (ws : List WalletChain) (e : Err)
    (hr : recoverFromWallet w = .error e) :
    (w :: ws).filter (fun w => (recoverFromWallet w).toOption.isSome)
      = ws.filter (fun w => (recoverFromWallet w).toOption.isSome) := by
  rw [List.filter_cons]
  simp [hr, Except.toOption]

lemma executeRecovery_foldl (ws : List WalletChain) (a b : Nat) :
    ws.foldl
      (fun acc w =>
        match recoverFromWallet w with
        | .ok recovered => (acc.1 + recovered, acc.2 + 1)
        | .error _ => acc)
      (a, b)
    = (a + (ws.filterMap (fun w => (recoverFromWallet w).toOption)).sum,
       b + (ws.filter (fun w => (recoverFromWallet w).toOption.isSome)).length) := by
  induction ws generalizing a b with
  | nil => simp
  | cons w ws ih =>
    cases hr : recoverFromWallet w with
    | ok n =>
      rw [List.foldl_cons, filterMap_cons_ok w ws n hr, filter_cons_ok w ws n hr]
      simp only [hr]
      rw [ih]
      simp only [List.sum_cons, List.length_cons, Prod.mk.injEq]
      omega
    | error e =>
      rw [List.foldl_cons, filterMap_cons_error w ws e hr, filter_cons_error w ws e hr]
      simp only [hr]
      rw [ih]

/-- Claim C3: recovery never aborts on a single wallet failure.  For
every wallet list, `executeRecovery` consults every wallet in turn:
`walletsProcessed` is exactly the number of wallets whose
`recoverFromWallet` returned without throwing, and `totalMonRecovered`
is exactly the sum of the amounts of those wallets — so a wallet that
throws (such as W2 failing in its sell step) is skipped, contributes
zero, and the wallets before and after it (W1, W3) are still processed
and counted. -/
theorem executeRecovery_never_aborts (ws : List WalletChain) :
    (executeRecovery ws).2
      = (ws.filter (fun w => (recoverFromWallet w).toOption.isSome)).length
    ∧ (executeRecovery ws).1
      = (ws.filterMap (fun w => (recoverFromWallet w).toOption)).sum := by
  unfold executeRecovery
  rw [executeRecovery_foldl]
  simp

/-- Claim C10: `sellToken` returns zero MON on every successful call
(the receipt is never parsed), so the total recovered by
`executeRecovery` is exactly the sum of the per-wallet MON transfer
amounts and never includes token-sale proceeds. -/
theorem recovery_total_excludes_sale_proceeds :
    (∀ tx : Except Err Unit, sellToken tx = Except.map (fun _ => 0) tx)
    ∧ ∀ ws : List WalletChain,
        (executeRecovery ws).1
          = (ws.map (fun w =>
              if (recoverFromWallet w).toOption.isSome
              then walletTransferAmount w else 0)).sum := by
  constructor
  · intro tx; cases tx <;> rfl
  · intro ws
    rw [(executeRecovery_never_aborts ws).2]
    induction ws with
    | nil => simp
    | cons w ws ih =>
      cases hr : recoverFromWallet w with
      | ok n =>
        rw [filterMap_cons_ok w ws n hr, List.map_cons, List.sum_cons,
          List.sum_cons, ih, recoverFromWallet_ok_eq w n hr]
        simp [hr, Except.toOption]
      | error e =>
        rw [filterMap_cons_error w ws e hr, List.map_cons, List.sum_cons, ih]
        simp [hr, Except.toOption]

/-! ## Transaction bundler (src/bundler/transactionBundler.ts)

The bundler is modelled on its no-bundler (sequential) path, the one
the claims address; each submission (`sendTransaction` + `wait`) is a
pre-supplied `Except Err TxHash` outcome. -/

/-- One emitted log entry of a transaction receipt (opaque here: the
source never inspects its fields). -/
abbrev ReceiptLog := Nat

/-- A transaction receipt as consumed by `extractTokenAddress`: only
its list of logs matters. -/
structure Receipt where
  logs : List ReceiptLog
deriving DecidableEq, Repr

/-- `TransactionBundler.extractTokenAddress` (lines 158-169 of the
bundler source): returns null for a null receipt, then loops over
`receipt.logs` with an empty placeholder body, and returns null.  So it
returns null on every input. -/
def extractTokenAddress (receipt : Option Receipt) : Option String :=
  match receipt with
  | none => none
  | some _ => none

/-- `TransactionBundler.bundleTokenCreationAndBuy`, sequential path
(no bundler endpoint configured).  Sends the creation transaction and
waits (a throw propagates), fetches the receipt, runs
`extractTokenAddress`; only when that returns a (truthy) address does
it send the buy and push the two hashes — otherwise the buy is skipped
and the empty `transactions` and `signatures` arrays are returned. -/
def bundleTokenCreationAndBuySeq (createOutcome : Except Err TxHash)
    (receipt : Option Receipt) (buyOutcome : Except Err TxHash) :
    Except Err TransactionBundle :=
  match createOutcome with
  | .error e => .error e
  | .ok createHash =>
    match extractTokenAddress receipt with
    | some _tokenAddress =>
      match buyOutcome with
      | .error e => .error e
      | .ok buyHash =>
        .ok { transactions := [createHash, buyHash],
              signatures := [createHash, buyHash] }
    | none => .ok { transactions := [], signatures := [] }

/-- `TransactionBundler.bundleMultipleBuys`, sequential path (lines
122-135 of the bundler source): for each wallet in order, send the buy
and wait, pushing the hash into the local `transactions` and
`signatures` arrays.  There is no try/catch: a throw at any operation
propagates out of the method, and the local arrays holding the already
confirmed hashes are discarded. -/
def bundleMultipleBuysSeq (outcomes : List (Except Err TxHash)) :
    Except Err TransactionBundle :=
  go outcomes []
where
  /-- Loop over remaining submissions with the accumulated hashes. -/
  go : List (Except Err TxHash) → List TxHash → Except Err TransactionBundle
  | [], acc => .ok { transactions := acc.reverse, signatures := acc.reverse }
  | o :: rest, acc =>
    match o with
    | .ok h => go rest (h :: acc)
    | .error e => .error e

/-- The token address value `phase2_FundBondingCurve` stores
(src/bot/orchestrator.ts line 114): the empty string, with a TODO
comment in place of reading the creation receipt. -/
def phase2TokenAddress : String := ""

/-- A token address is resolved when it is non-empty (the empty string
is falsy in JS; `phase3_WaitForBondingCurve` treats it as unset). -/
def isResolvedTokenAddress (a : String) : Bool := a ≠ ""

/-- `phase2_FundBondingCurve` (src/bot/orchestrator.ts lines 89-136),
control flow only: bundle creation plus first buy, store
`phase2TokenAddress`, then bundle the remaining buys against that
stored address.  Returns the stored token address and both bundles. -/
def phase2FundBondingCurve (createOutcome : Except Err TxHash)
    (receipt : Option Receipt) (buyOutcome : Except Err TxHash)
    (remainingOutcomes : List (Except Err TxHash)) :
    Except Err (String × TransactionBundle × TransactionBundle) :=
  match bundleTokenCreationAndBuySeq createOutcome receipt buyOutcome with
  | .error e => .error e
  | .ok firstBundle =>
    let tokenAddress := phase2TokenAddress
    match bundleMultipleBuysSeq remainingOutcomes with
    | .error e => .error e
    | .ok buysBundle => .ok (tokenAddress, firstBundle, buysBundle)

/-- A concrete receipt with one log entry, as a successful creation
transaction would produce. -/
def sampleReceipt : Receipt := { logs := [7] }

/-- Claim C1 (code bug evidence): the token address is never obtained
from the creation receipt, and an unresolved address neither raises an
error nor stops the buys.  Concretely: `extractTokenAddress` returns
none on every receipt; on a successful creation the combined bundle
silently skips the first buy and reports empty lists instead of
erroring; and the full phase 2 flow completes without error, storing
the unresolved empty-string address and issuing the remaining buy
against it. -/
theorem phase2_buys_proceed_with_unresolved_address :
    (∀ r : Option Receipt, extractTokenAddress r = none)
    ∧ bundleTokenCreationAndBuySeq (.ok 1) (some sampleReceipt) (.ok 2)
        = .ok { transactions := [], signatures := [] }
    ∧ phase2FundBondingCurve (.ok 1) (some sampleReceipt) (.ok 2) [.ok 3]
        = .ok (phase2TokenAddress,
               { transactions := [], signatures := [] },
               { transactions := [3], signatures := [3] })
    ∧ isResolvedTokenAddress phase2TokenAddress = false := by
  refine ⟨fun r => ?_, rfl, rfl, rfl⟩
  cases r <;> rfl

/-- On the all-success sequential path, `bundleMultipleBuys` returns
the submitted hashes 1:1 in input order (supporting development, not
tied to a single claim). -/
lemma bundleMultipleBuysSeq_all_ok (hs : List TxHash) :
    bundleMultipleBuysSeq (hs.map .ok) = .ok { transactions := hs, signatures := hs } := by
  have key : ∀ rest acc, bundleMultipleBuysSeq.go (rest.map .ok) acc
      = .ok { transactions := acc.reverse ++ rest,
              signatures := acc.reverse ++ rest } := by
    intro rest
    induction rest with
    | nil => intro acc; simp [bundleMultipleBuysSeq.go]
    | cons h t ih =>
      intro acc
      simp only [List.map_cons, bundleMultipleBuysSeq.go, ih]
      simp
  unfold bundleMultipleBuysSeq
  rw [key hs []]
  simp

/-- A concrete thrown-error payload for the failing-input scenarios. -/
def errRevert : Err := "transaction reverted"

/-- Claim C2 (code bug evidence): in sequential mode, when operation
k fails, the bundler does not return a `TransactionBundle` with the
k-1 successful entries — the exception propagates and the record of
the confirmed operations is lost.  Concretely, with three buys where
the second submission throws, `bundleMultipleBuys` evaluates to the
bare error: no bundle, no surviving entry for the confirmed first
operation, no index report. -/
theorem bundleMultipleBuys_partial_failure_loses_report :
    bundleMultipleBuysSeq [.ok 1, .error errRevert, .ok 3] = .error errRevert
    ∧ (bundleMultipleBuysSeq [.ok 1, .error errRevert, .ok 3]).toOption = none := by
  exact ⟨rfl, rfl⟩

/-! ## Wallet derivation (src/utils/wallet.ts)

A BIP44-style derivation path as constructed by the wallet manager;
the first four segments are hardened or fixed and the fifth is the
address index.  `generateFundingWallets` builds the path
m/44h/60h/0h/0/i for each index i, `generateVolumeWallets` builds
m/44h/60h/1h/0/i: the third (account) segment differs. -/

/-- The five numeric segments of a derivation path string. -/
structure DerivationPath where
  purpose : Nat
  coinType : Nat
  account : Nat
  change : Nat
  addressIndex : Nat
deriving DecidableEq, Repr

/-- The path used for funding wallet `i` (wallet manager, funding
loop). -/
def fundingPath (i : Nat) : DerivationPath :=
  { purpose := 44, coinType := 60, account := 0, change := 0, addressIndex := i }

/-- The path used for volume wallet `i` (wallet manager, volume
loop). -/
def volumePath (i : Nat) : DerivationPath :=
  { purpose := 44, coinType := 60, account := 1, change := 0, addressIndex := i }

/-- `WalletManager.generateFundingWallets`: loops `i` from 0 to
`count - 1`, deriving a wallet at `fundingPath i`.  Modelled as the
list of derivation paths the loop feeds to the HD derivation. -/
def generateFundingWallets (count : Nat) : List DerivationPath :=
  (List.range count).map fundingPath

/-- `WalletManager.generateVolumeWallets`: loops `i` from 0 to
`count - 1`, deriving a wallet at `volumePath i`. -/
def generateVolumeWallets (count : Nat) : List DerivationPath :=
  (List.range count).map volumePath

/-- Claim C6: for every seed and every (funding-count, volume-count)
pair, the funding paths use a different BIP44 account segment from the
volume paths (no shared branch below the master seed), and — given
that HD derivation assigns distinct addresses to distinct paths under
a fixed seed (injectivity of the external `fromPhrase` derivation,
the cryptographic property the design relies on) — the funding
address set is disjoint from the volume address set. -/
theorem wallet_namespaces_disjoint {Addr : Type}
    (hd : String → DerivationPath → Addr) (seed : String)
    (hinj : Function.Injective (hd seed)) (nf nv : Nat) :
    (∀ i j, (fundingPath i).account ≠ (volumePath j).account)
    ∧ ∀ a ∈ (generateFundingWallets nf).map (hd seed),
        a ∉ (generateVolumeWallets nv).map (hd seed) := by
  constructor
  · intro i j
    simp [fundingPath, volumePath]
  · intro a ha hb
    simp only [generateFundingWallets, generateVolumeWallets, List.map_map,
      List.mem_map, List.mem_range, Function.comp] at ha hb
    obtain ⟨i, _, hi⟩ := ha
    obtain ⟨j, _, hj⟩ := hb
    have hpaths : fundingPath i = volumePath j := hinj (hi.trans hj.symm)
    have : (fundingPath i).account = (volumePath j).account := by rw [hpaths]
    simp [fundingPath, volumePath] at this

/-- Witness for claim C6: the disjointness theorem applied at the
identity derivation map (which is injective) with two wallets in each
namespace and a concrete seed. -/
theorem wallet_namespaces_disjoint_witness :
    Function.Injective ((fun _ p => p : String → DerivationPath → DerivationPath) "s")
    ∧ ((∀ i j, (fundingPath i).account ≠ (volumePath j).account)
       ∧ ∀ a ∈ (generateFundingWallets 2).map
            ((fun _ p => p : String → DerivationPath → DerivationPath) "s"),
          a ∉ (generateVolumeWallets 2).map
            ((fun _ p => p : String → DerivationPath → DerivationPath) "s")) :=
  ⟨fun _ _ h => h,
   wallet_namespaces_disjoint (fun _ p => p) "s" (fun _ _ h => h) 2 2⟩

/-! ## Configuration and phase 1 (src/config.ts, orchestrator phase 1) -/

/-- The bonding-curve section of the configuration (src/config.ts):
target MON, funding wallet count, and the min/max wallet bounds. -/
structure BondingCurveConfig where
  targetMon : ℚ
  walletCount : Nat
  minWallets : Nat
  maxWallets : Nat
deriving DecidableEq, Repr

/-- The defaults from src/config.ts: target 1296000 MON, 100 funding
wallets, bounds 100 and 150. -/
def defaultBondingCurveConfig : BondingCurveConfig :=
  { targetMon := 1296000, walletCount := 100, minWallets := 100, maxWallets := 150 }

/-- `phase1_GenerateFundingWallets` (src/bot/orchestrator.ts lines
69-84): reads `config.bondingCurve.walletCount` and derives exactly
that many funding wallets.  The `minWallets` and `maxWallets` config
fields are not consulted anywhere in the phase. -/
def phase1FundingWallets (cfg : BondingCurveConfig) : List DerivationPath :=
  generateFundingWallets cfg.walletCount

/-- A configuration with the wallet count set to 50 (reachable by
setting the count environment variable), below the default minimum
bound of 100. -/
def cfgFifty : BondingCurveConfig :=
  { defaultBondingCurveConfig with walletCount := 50 }

/-- Counterexample for claim C8: the claim says the derived count
always lies within the configured [min, max] bounds, but the code
never enforces them — with the wallet count configured to 50 the
phase derives 50 wallets, strictly below the minimum bound 100 it
retains in the same configuration. -/
theorem phase1_count_bounds_not_enforced :
    (phase1FundingWallets cfgFifty).length = 50
    ∧ ¬ (cfgFifty.minWallets ≤ (phase1FundingWallets cfgFifty).length) := by
  constructor
  · simp [phase1FundingWallets, generateFundingWallets, cfgFifty,
      defaultBondingCurveConfig]
  · simp [phase1FundingWallets, generateFundingWallets, cfgFifty,
      defaultBondingCurveConfig]

/-- Claim C8 as amended: the number of funding wallets derived always
equals the configured target, and under the default configuration
(count 100) that number lies within the [100, 150] bounds; the bounds
themselves are configuration data the phase never enforces. -/
theorem phase1_count_matches_config :
    (∀ cfg : BondingCurveConfig,
       (phase1FundingWallets cfg).length = cfg.walletCount)
    ∧ (phase1FundingWallets defaultBondingCurveConfig).length = 100
    ∧ defaultBondingCurveConfig.minWallets
        ≤ (phase1FundingWallets defaultBondingCurveConfig).length
    ∧ (phase1FundingWallets defaultBondingCurveConfig).length
        ≤ defaultBondingCurveConfig.maxWallets := by
  refine ⟨fun cfg => ?_, ?_, ?_, ?_⟩ <;>
    simp [phase1FundingWallets, generateFundingWallets, defaultBondingCurveConfig]

/-! ## Phase 2 contribution arithmetic (orchestrator lines 89-136)

JavaScript number arithmetic is modelled in ℚ; at the concrete values
below every intermediate is exactly representable as a double, so the
models agree. -/

/-- `monPerWallet = targetMon / fundingWallets.length`: the first
wallet combined create+buy amount. -/
def phase2MonPerWallet (targetMon : ℚ) (walletCount : Nat) : ℚ :=
  targetMon / walletCount

/-- `amountPerRemainingWallet = (targetMon - monPerWallet) /
remainingWallets.length` with `remainingWallets.length =
walletCount - 1`. -/
def phase2RemainingPerWallet (targetMon : ℚ) (walletCount : Nat) : ℚ :=
  (targetMon - phase2MonPerWallet targetMon walletCount) / ((walletCount - 1 : Nat) : ℚ)

/-- Counterexample for claim C4: at target 1296000 MON and 100
wallets, the per-remaining-wallet amount (1296000 - 12960) / 99 equals
12960 MON exactly — it is not the 13090.9... MON (= 144000/11) the
claim states. -/
theorem phase2_split_not_thirteen_thousand :
    phase2RemainingPerWallet 1296000 100 = 12960
    ∧ phase2RemainingPerWallet 1296000 100 ≠ 144000 / 11
    ∧ phase2RemainingPerWallet 1296000 100 < 13090 := by
  refine ⟨?_, ?_, ?_⟩ <;>
    norm_num [phase2RemainingPerWallet, phase2MonPerWallet]

/-- Claim C4 as amended: with target 1296000 MON and 100 funding
wallets, the first wallet combined create+buy amount is 12960 MON and
each of the remaining 99 wallets contributes
(1296000 - 12960) / 99 = 12960 MON exactly. -/
theorem phase2_split_amounts :
    phase2MonPerWallet 1296000 100 = 12960
    ∧ phase2RemainingPerWallet 1296000 100 = (1296000 - 12960) / 99
    ∧ phase2RemainingPerWallet 1296000 100 = 12960 := by
  refine ⟨?_, ?_, ?_⟩ <;>
    norm_num [phase2RemainingPerWallet, phase2MonPerWallet]

/-! ## Phase 3 completion poll loop (orchestrator lines 141-170)

The loop checks `Date.now() - startTime < maxWaitTime` at the top,
reads the status, returns on `isComplete`, otherwise sleeps 30 s and
re-checks; when the guard fails it throws the timeout error.  With
each status read instantaneous and a 30000 ms sleep after every failed
read, the elapsed time at the k-th check is `k * 30000` ms; the loop
is modelled as a function of the check number k. -/

/-- The fixed poll interval of the phase 3 loop, in ms. -/
def pollIntervalMs : Nat := 30000

/-- The maximum wait of the phase 3 loop, in ms (1 hour). -/
def maxWaitTimeMs : Nat := 3600000

/-- The message of the timeout error the loop throws. -/
def timeoutMsg : String := "Bonding curve did not complete within timeout"

/-- `phase3_WaitForBondingCurve` poll loop from check number `k`
(elapsed `k * 30000` ms): while the elapsed time is below the maximum
wait, poll the status source and either return the successful check
number or continue; once the elapsed time reaches the maximum, throw
the timeout error. -/
def phase3Poll (status : Nat → Bool) (k : Nat) : Except Err Nat :=
  if h : k * 30000 < 3600000 then
    if status k then .ok k
    else phase3Poll status (k + 1)
  else .error timeoutMsg
termination_by 120 - k
decreasing_by omega

lemma phase3Poll_continue (status : Nat → Bool) (k : Nat)
    (hk : k * 30000 < 3600000) (hs : status k = false) :
    phase3Poll status k = phase3Poll status (k + 1) := by
  rw [phase3Poll]
  simp [hk, hs]

lemma phase3Poll_timeout_at (status : Nat → Bool) (k : Nat)
    (hk : 3600000 ≤ k * 30000) :
    phase3Poll status k = .error timeoutMsg := by
  rw [phase3Poll]
  simp [Nat.not_lt.mpr hk]

lemma phase3Poll_never_complete (status : Nat → Bool)
    (h : ∀ k, status k = false) :
    ∀ j k, 120 - k ≤ j → phase3Poll status k = .error timeoutMsg := by
  intro j
  induction j with
  | zero =>
    intro k hk
    exact phase3Poll_timeout_at status k (by omega)
  | succ j ih =>
    intro k hk
    by_cases hlt : k * 30000 < 3600000
    · rw [phase3Poll_continue status k hlt (h k)]
      exact ih (k + 1) (by omega)
    · exact phase3Poll_timeout_at status k (by omega)

/-- Claim C5: when every poll reports the curve incomplete, the loop
raises the deadline error once the elapsed time reaches the one-hour
maximum and not before: starting from elapsed 0 it ends in the timeout
error; at every check with elapsed time below the maximum it does not
error but polls again on the fixed 30 s interval; and at any check
with elapsed time at or past the maximum it throws the deadline error
immediately (for any status source — fatal, with no retry). -/
theorem phase3_deadline (status : Nat → Bool)
    (h : ∀ k, status k = false) :
    phase3Poll status 0 = .error timeoutMsg
    ∧ (∀ k, k * 30000 < 3600000 →
        phase3Poll status k = phase3Poll status (k + 1))
    ∧ ∀ status2 : Nat → Bool, ∀ k, 3600000 ≤ k * 30000 →
        phase3Poll status2 k = .error timeoutMsg := by
  refine ⟨phase3Poll_never_complete status h 120 0 (by omega),
    fun k hk => phase3Poll_continue status k hk (h k),
    fun status2 k hk => phase3Poll_timeout_at status2 k hk⟩

/-- A status source that never reports completion. -/
def neverComplete : Nat → Bool := fun _ => false

/-- Witness for claim C5: the deadline theorem applied to the
never-complete status source. -/
theorem phase3_deadline_witness :
    (∀ k, neverComplete k = false)
    ∧ phase3Poll neverComplete 0 = .error timeoutMsg :=
  ⟨fun _ => rfl, (phase3_deadline neverComplete (fun _ => rfl)).1⟩

/-! ## Volume scheduler randomness bounds (src/bot/volumeBot.ts)

`Math.random()` draws are modelled as rationals `r` with
`0 ≤ r < 1`; `Math.floor` on a nonnegative double is the integer
floor. -/

/-- `VolumeBot.getRandomInterval` (lines 155-159):
`Math.floor(Math.random() * (max - min + 1)) + min`. -/
def getRandomInterval (r : ℚ) (minMs maxMs : ℤ) : ℤ :=
  ⌊r * ((maxMs : ℚ) - (minMs : ℚ) + 1)⌋ + minMs

/-- `VolumeBot.getRandomTradeAmount` (lines 161-165):
`Math.random() * (max - min) + min`. -/
def getRandomTradeAmount (r minMon maxMon : ℚ) : ℚ :=
  r * (maxMon - minMon) + minMon

/-- One scheduler tick: the interval slept before the trade and the
MON amount recorded on the appended `TradeOrder`, as functions of the
two `Math.random()` draws of that tick. -/
def volumeRun (draws : List (ℚ × ℚ)) (minMs maxMs : ℤ) (minMon maxMon : ℚ) :
    List ℤ × List ℚ :=
  (draws.map (fun d => getRandomInterval d.1 minMs maxMs),
   draws.map (fun d => getRandomTradeAmount d.2 minMon maxMon))

lemma getRandomInterval_bounds (r : ℚ) (minMs maxMs : ℤ)
    (h0 : 0 ≤ r) (h1 : r < 1) (hle : minMs ≤ maxMs) :
    minMs ≤ getRandomInterval r minMs maxMs
    ∧ getRandomInterval r minMs maxMs ≤ maxMs := by
  unfold getRandomInterval
  have hspan : (0 : ℚ) < (maxMs : ℚ) - (minMs : ℚ) + 1 := by
    have : (minMs : ℚ) ≤ (maxMs : ℚ) := by exact_mod_cast hle
    linarith
  constructor
  · have hnn : (0 : ℚ) ≤ r * ((maxMs : ℚ) - (minMs : ℚ) + 1) := by positivity
    have := Int.floor_nonneg.mpr hnn
    omega
  · have hlt : r * ((maxMs : ℚ) - (minMs : ℚ) + 1)
        < ((maxMs - minMs + 1 : ℤ) : ℚ) := by
      push_cast
      nlinarith
    have := Int.floor_lt.mpr hlt
    omega

lemma getRandomTradeAmount_bounds (r minMon maxMon : ℚ)
    (h0 : 0 ≤ r) (h1 : r < 1) (hle : minMon ≤ maxMon) :
    minMon ≤ getRandomTradeAmount r minMon maxMon
    ∧ getRandomTradeAmount r minMon maxMon ≤ maxMon := by
  unfold getRandomTradeAmount
  constructor <;> nlinarith

/-- Claim C9: for every scheduler run and every value of the random
source, each generated trade interval lies within
[minIntervalMs, maxIntervalMs] and each recorded trade amount lies
within [minTradeMON, maxTradeMON]. -/
theorem volume_trade_bounds (minMs maxMs : ℤ) (minMon maxMon : ℚ)
    (draws : List (ℚ × ℚ))
    (hI : minMs ≤ maxMs) (hA : minMon ≤ maxMon)
    (hd : ∀ p ∈ draws, (0 ≤ p.1 ∧ p.1 < 1) ∧ (0 ≤ p.2 ∧ p.2 < 1)) :
    (∀ iv ∈ (volumeRun draws minMs maxMs minMon maxMon).1,
       minMs ≤ iv ∧ iv ≤ maxMs)
    ∧ ∀ amt ∈ (volumeRun draws minMs maxMs minMon maxMon).2,
        minMon ≤ amt ∧ amt ≤ maxMon := by
  constructor
  · intro iv hiv
    simp only [volumeRun, List.mem_map] at hiv
    obtain ⟨p, hp, rfl⟩ := hiv
    exact getRandomInterval_bounds p.1 minMs maxMs (hd p hp).1.1 (hd p hp).1.2 hI
  · intro amt hamt
    simp only [volumeRun, List.mem_map] at hamt
    obtain ⟨p, hp, rfl⟩ := hamt
    exact getRandomTradeAmount_bounds p.2 minMon maxMon (hd p hp).2.1 (hd p hp).2.2 hA

/-- Witness for claim C9: a two-tick run with the default interval
bounds 5000..30000 ms and amount bounds 10..100 MON, at draws 0 and
1/2. -/
theorem volume_trade_bounds_witness :
    ((5000 : ℤ) ≤ 30000 ∧ (10 : ℚ) ≤ 100
     ∧ ∀ p ∈ [((0 : ℚ), (1/2 : ℚ)), ((1/2 : ℚ), (0 : ℚ))],
         (0 ≤ p.1 ∧ p.1 < 1) ∧ (0 ≤ p.2 ∧ p.2 < 1))
    ∧ ((∀ iv ∈ (volumeRun [((0 : ℚ), (1/2 : ℚ)), ((1/2 : ℚ), (0 : ℚ))]
          5000 30000 10 100).1, (5000 : ℤ) ≤ iv ∧ iv ≤ 30000)
       ∧ ∀ amt ∈ (volumeRun [((0 : ℚ), (1/2 : ℚ)), ((1/2 : ℚ), (0 : ℚ))]
          5000 30000 10 100).2, (10 : ℚ) ≤ amt ∧ amt ≤ 100) :=
  ⟨⟨by norm_num, by norm_num, by
      intro p hp
      simp only [List.mem_cons, List.not_mem_nil, or_false] at hp
      rcases hp with rfl | rfl <;> norm_num⟩,
   volume_trade_bounds 5000 30000 10 100
     [((0 : ℚ), (1/2 : ℚ)), ((1/2 : ℚ), (0 : ℚ))]
     (by norm_num) (by norm_num)
     (by
       intro p hp
       simp only [List.mem_cons, List.not_mem_nil, or_false] at hp
       rcases hp with rfl | rfl <;> norm_num)⟩

/-! ## getState snapshot semantics (orchestrator lines 271-273)

`getState` returns `{ ...this.state }`: a JavaScript object spread,
which allocates a new object and copies the field values — including
the `fundingWallets` and `volumeWallets` ARRAY REFERENCES, which are
not cloned.  To reason about this aliasing the relevant part of the
JS heap is made explicit: state objects and wallet arrays live at
numeric references, and mutation is a heap update. -/

/-- The fields of a `BotState` object as stored on the heap: the
wallet lists are references into the array heap, the rest are value
fields (src/types.ts `BotState`). -/
structure BotStateObj where
  phase : String
  tokenAddress : Option String
  fundingWallets : Nat
  volumeWallets : Nat
  totalMonDeposited : Nat
  bondingCurveComplete : Bool
  volumeGenerated : Nat
deriving DecidableEq, Repr

/-- The JS heap fragment: state objects and wallet arrays (lists of
wallet identifiers) at numeric references, plus the next fresh
reference. -/
structure JsHeap where
  stateAt : Nat → BotStateObj
  arrayAt : Nat → List Nat
  nextRef : Nat

/-- `BotOrchestrator.getState`: evaluates `{ ...this.state }` —
allocates a fresh object whose fields are copied from the live state
object at `self` (the array references are copied as references) and
returns the new reference with the updated heap. -/
def getState (h : JsHeap) (self : Nat) : Nat × JsHeap :=
  (h.nextRef,
   { h with
     stateAt := fun r => if r = h.nextRef then h.stateAt self else h.stateAt r,
     nextRef := h.nextRef + 1 })

/-- Mutating a wallet array on the heap (e.g. `arr.push(x)` on a list
reachable from a snapshot). -/
def writeArray (h : JsHeap) (a : Nat) (v : List Nat) : JsHeap :=
  { h with arrayAt := fun r => if r = a then v else h.arrayAt r }

/-- Reassigning top-level fields of the state object at reference `s`
(e.g. `snapshot.phase = x`). -/
def updateStateObj (h : JsHeap) (s : Nat) (f : BotStateObj → BotStateObj) : JsHeap :=
  { h with stateAt := fun r => if r = s then f (h.stateAt r) else h.stateAt r }

/-- The funding wallet list an observer reads through the state object
at reference `s`. -/
def observedFundingWallets (h : JsHeap) (s : Nat) : List Nat :=
  h.arrayAt (h.stateAt s).fundingWallets

/-- A concrete heap: the live `BotState` lives at reference 0 and its
funding wallet array (holding wallets 1 and 2) at array reference 0;
the next fresh reference is 1. -/
def cexHeap : JsHeap :=
  { stateAt := fun _ =>
      { phase := "volume", tokenAddress := none, fundingWallets := 0,
        volumeWallets := 1, totalMonDeposited := 0,
        bondingCurveComplete := false, volumeGenerated := 0 },
    arrayAt := fun r => if r = 0 then [1, 2] else [],
    nextRef := 1 }

/-- Counterexample for claim C7: the claim says mutating the value
returned by `getState` — including its `fundingWallets` list — leaves
the internal state unchanged.  On the concrete heap the orchestrator
internally observes funding wallets [1, 2]; after `getState` and a
push of wallet 99 onto the `fundingWallets` array of the returned snapshot,
the orchestrator internally observes [1, 2, 99]: the spread copy
shares the array reference, so the mutation does reach the internal
state. -/
theorem getState_mutation_reaches_internal_state :
    observedFundingWallets cexHeap 0 = [1, 2]
    ∧ observedFundingWallets
        (writeArray (getState cexHeap 0).2
          (((getState cexHeap 0).2.stateAt (getState cexHeap 0).1).fundingWallets)
          [1, 2, 99])
        0
      = [1, 2, 99] := by
  constructor <;> rfl

/-- Claim C7 as amended: `getState` returns a shallow copy.  For any
heap whose live state reference is not the fresh one: the returned
reference is a new object distinct from the live one; its fields equal
the live fields at snapshot time; reassigning any top-level field of
the snapshot leaves the live object unchanged; but the
`fundingWallets` array reference is shared, so mutating the list
through the snapshot changes the list the orchestrator observes
internally. -/
theorem getState_shallow_copy (h : JsHeap) (self : Nat)
    (hfresh : self ≠ h.nextRef) :
    (getState h self).1 ≠ self
    ∧ (getState h self).2.stateAt (getState h self).1 = h.stateAt self
    ∧ (∀ f, (updateStateObj (getState h self).2 (getState h self).1 f).stateAt self
          = h.stateAt self)
    ∧ ((getState h self).2.stateAt (getState h self).1).fundingWallets
        = ((getState h self).2.stateAt self).fundingWallets
    ∧ ∀ v, observedFundingWallets
          (writeArray (getState h self).2
            (((getState h self).2.stateAt (getState h self).1).fundingWallets) v)
          self
        = v := by
  refine ⟨fun hc => hfresh hc.symm, ?_, ?_, ?_, ?_⟩
  · simp [getState]
  · intro f
    simp [getState, updateStateObj, hfresh, Ne.symm hfresh]
  · simp [getState, hfresh]
  · intro v
    simp [getState, writeArray, observedFundingWallets, hfresh]

/-- Witness for the amended theorem of claim C7: the shallow-copy theorem
applied to the concrete heap (live reference 0, fresh reference 1). -/
theorem getState_shallow_copy_witness :
    (0 : Nat) ≠ cexHeap.nextRef
    ∧ ((getState cexHeap 0).1 ≠ 0
       ∧ (getState cexHeap 0).2.stateAt (getState cexHeap 0).1 = cexHeap.stateAt 0
       ∧ (∀ f, (updateStateObj (getState cexHeap 0).2 (getState cexHeap 0).1 f).stateAt 0
             = cexHeap.stateAt 0)
       ∧ ((getState cexHeap 0).2.stateAt (getState cexHeap 0).1).fundingWallets
           = ((getState cexHeap 0).2.stateAt 0).fundingWallets
       ∧ ∀ v, observedFundingWallets
             (writeArray (getState cexHeap 0).2
               (((getState cexHeap 0).2.stateAt (getState cexHeap 0).1).fundingWallets) v)
             0
           = v) :=
  ⟨by decide, getState_shallow_copy cexHeap 0 (by decide)⟩

end BonkfunBundler
